import Mathlib

/-!
Shallow embedding of the copy-on-write simulation core of this pytorch
excerpt: the generation counter `ShadowStorageImpl` (template on the
`intrusive` ownership flag), the `ShadowStorageMixin` gated by the
`PYTORCH_INSTRUMENT_COW_TENSOR` build flag, the `Storage` facade, and the
CPU stubs of the `c10d` shuffle operations.
-/

namespace PyTorchCow

/-- `2^64`, the number of `std::uint64_t` values, as a literal. -/
def UINT64_BOUND : Nat := 18446744073709551616

/-- `std::numeric_limits<std::uint64_t>::max()`. -/
def UINT64_MAX : Nat := UINT64_BOUND - 1

theorem UINT64_BOUND_eq : UINT64_BOUND = 2 ^ 64 := by norm_num [UINT64_BOUND]

/-- `cow::detail::ShadowStorageImpl<intrusive>`: a 64-bit generation counter,
parameterized (as in the source template) by the ownership flag `intrusive`.
The stored value is a `std::uint64_t`, kept in range by `isLt`. -/
structure ShadowStorageImpl (intrusive : Bool) where
  generation_ : Nat
  isLt : generation_ < UINT64_BOUND

/-- The constructor `ShadowStorageImpl(std::uint64_t generation)`: the
argument is a `std::uint64_t`, modelled by reducing a `Nat` mod `2^64`. -/
def ShadowStorageImpl.ctor (intrusive : Bool) (generation : Nat) :
    ShadowStorageImpl intrusive :=
  ⟨generation % UINT64_BOUND, Nat.mod_lt _ (by norm_num [UINT64_BOUND])⟩

/-- `ShadowStorageImpl::generation()`: returns `generation_`. -/
def ShadowStorageImpl.generation {b : Bool} (s : ShadowStorageImpl b) : Nat :=
  s.generation_

/-- `ShadowStorageImpl::bump_generation()`:
`TORCH_INTERNAL_ASSERT(generation_ != max)` then `return ++generation_;`.
`none` models the fatal internal assert; otherwise the new value is
returned together with the updated counter. -/
def ShadowStorageImpl.bump_generation {b : Bool} (s : ShadowStorageImpl b) :
    Option (Nat × ShadowStorageImpl b) :=
  if h : s.generation_ = UINT64_MAX then none
  else
    some (s.generation_ + 1, ⟨s.generation_ + 1, by
      have hlt := s.isLt
      unfold UINT64_MAX at h
      unfold UINT64_BOUND at *
      omega⟩)

/-- Runs `n` consecutive `bump_generation` calls, collecting the returned
values; a fatal assert anywhere aborts the whole run (`none`). -/
def bumpN {b : Bool} (s : ShadowStorageImpl b) :
    Nat → Option (List Nat × ShadowStorageImpl b)
  | 0 => some ([], s)
  | n + 1 =>
    match s.bump_generation with
    | none => none
    | some (v, s1) => (bumpN s1 n).map (fun p => (v :: p.1, p.2))

theorem bumpN_spec {b : Bool} (N : Nat) :
    ∀ s : ShadowStorageImpl b, s.generation_ + N ≤ UINT64_MAX →
      ∃ sf, bumpN s N
          = some ((List.range N).map (fun i => s.generation_ + 1 + i), sf)
        ∧ sf.generation_ = s.generation_ + N := by
  induction N with
  | zero =>
    intro s _
    exact ⟨s, by simp [bumpN], by omega⟩
  | succ n ih =>
    intro s h
    have hne : s.generation_ ≠ UINT64_MAX := by
      unfold UINT64_MAX UINT64_BOUND at *
      omega
    have hbump : s.bump_generation
        = some (s.generation_ + 1, ⟨s.generation_ + 1, by
            have hlt := s.isLt
            unfold UINT64_MAX UINT64_BOUND at *
            omega⟩) := by
      unfold ShadowStorageImpl.bump_generation
      rw [dif_neg hne]
    obtain ⟨sf, h1, h2⟩ := ih ⟨s.generation_ + 1, by
        have hlt := s.isLt
        unfold UINT64_MAX UINT64_BOUND at *
        omega⟩ (by show s.generation_ + 1 + n ≤ UINT64_MAX; omega)
    have h2' : sf.generation_ = s.generation_ + 1 + n := h2
    have hlist : (List.range (n + 1)).map (fun i => s.generation_ + 1 + i)
        = (s.generation_ + 1)
          :: (List.range n).map (fun i => s.generation_ + 1 + 1 + i) := by
      rw [List.range_succ_eq_map, List.map_cons, List.map_map]
      refine List.cons_eq_cons.mpr ⟨by omega, ?_⟩
      apply List.map_congr_left
      intro a _
      simp only [Function.comp_apply]
      omega
    refine ⟨sf, ?_, by omega⟩
    show bumpN s (n + 1) = _
    unfold bumpN
    rw [hbump]
    simp only [h1, hlist]
    rfl

/-- C1: starting the counter at `G` with `G + N ≤ UINT64_MAX`, `N` sequential
`bump_generation` calls succeed, the i-th call (1-based) returns `G + i`,
and the final generation is exactly `G + N`, for either ownership policy. -/
theorem sequential_bumps_count_exactly (b : Bool) (G N : Nat)
    (h : G + N ≤ UINT64_MAX) :
    ∃ sf, bumpN (ShadowStorageImpl.ctor b G) N
        = some ((List.range N).map (fun i => G + 1 + i), sf)
      ∧ sf.generation = G + N
      ∧ ∀ i, 1 ≤ i → i ≤ N →
          ((List.range N).map (fun i => G + 1 + i))[i - 1]? = some (G + i) := by
  have hctor : (ShadowStorageImpl.ctor b G).generation_ = G := by
    show G % UINT64_BOUND = G
    apply Nat.mod_eq_of_lt
    unfold UINT64_MAX UINT64_BOUND at *
    omega
  obtain ⟨sf, h1, h2⟩ := bumpN_spec N (ShadowStorageImpl.ctor b G)
    (by rw [hctor]; exact h)
  rw [hctor] at h1 h2
  refine ⟨sf, h1, h2, ?_⟩
  intro i h1i hiN
  have hlt : i - 1 < N := by omega
  rw [List.getElem?_map, List.getElem?_range hlt]
  show some (G + 1 + (i - 1)) = some (G + i)
  congr 1
  omega

/-- Closed witness for C1 at `b = true`, `G = 5`, `N = 3`. -/
theorem sequential_bumps_count_exactly_witness :
    5 + 3 ≤ UINT64_MAX
    ∧ ∃ sf, bumpN (ShadowStorageImpl.ctor true 5) 3
        = some ((List.range 3).map (fun i => 5 + 1 + i), sf)
      ∧ sf.generation = 5 + 3
      ∧ ∀ i, 1 ≤ i → i ≤ 3 →
          ((List.range 3).map (fun i => 5 + 1 + i))[i - 1]? = some (5 + i) :=
  ⟨by decide, sequential_bumps_count_exactly true 5 3 (by decide)⟩

/-- C2: bumping a counter whose generation equals `UINT64_MAX` is a fatal
invariant violation (`none`); it never wraps silently to zero. -/
theorem bump_at_max_is_fatal (b : Bool) (s : ShadowStorageImpl b)
    (h : s.generation = UINT64_MAX) :
    s.bump_generation = none := by
  unfold ShadowStorageImpl.bump_generation
  rw [dif_pos (show s.generation_ = UINT64_MAX from h)]

/-- Closed witness for C2 at a counter constructed at the max value. -/
theorem bump_at_max_is_fatal_witness :
    (ShadowStorageImpl.ctor true UINT64_MAX).generation = UINT64_MAX
    ∧ (ShadowStorageImpl.ctor true UINT64_MAX).bump_generation = none := by
  have h : (ShadowStorageImpl.ctor true UINT64_MAX).generation = UINT64_MAX := by
    show UINT64_MAX % UINT64_BOUND = UINT64_MAX
    apply Nat.mod_eq_of_lt
    unfold UINT64_MAX UINT64_BOUND
    omega
  exact ⟨h, bump_at_max_is_fatal true _ h⟩

/-- An object address: models the value of a raw or intrusive pointer to a
`cow::ShadowStorage` or `CopyOnWriteSimulator`; `Option Addr` with `none` for
`nullptr` models a nullable pointer. -/
abbrev Addr := Nat

/-- `cow::ShadowStorageMixin`, parameterized by whether the build defines
`PYTORCH_INSTRUMENT_COW_TENSOR`. When the flag is off the member
`shadow_storage_` does not exist, modelled by forcing it to `none`. -/
structure ShadowStorageMixin (instrumented : Bool) where
  shadow_storage_ : Option Addr

/-- The `ShadowStorageMixin(intrusive_ptr<ShadowStorage>)` constructor: the
member initializer runs only under `PYTORCH_INSTRUMENT_COW_TENSOR`. -/
def ShadowStorageMixin.ctor (instrumented : Bool)
    (shadow_storage : Option Addr) : ShadowStorageMixin instrumented :=
  if instrumented then ⟨shadow_storage⟩ else ⟨none⟩

/-- `ShadowStorageMixin::shadow_storage()`: `shadow_storage_.get()` under the
flag, otherwise `nullptr`. -/
def ShadowStorageMixin.shadow_storage {instrumented : Bool}
    (m : ShadowStorageMixin instrumented) : Option Addr :=
  if instrumented then m.shadow_storage_ else none

/-- `ShadowStorageMixin::shadow_storage_ref()`: a copy of `shadow_storage_`
under the flag, otherwise `nullptr`. -/
def ShadowStorageMixin.shadow_storage_ref {instrumented : Bool}
    (m : ShadowStorageMixin instrumented) : Option Addr :=
  if instrumented then m.shadow_storage_ else none

/-- C3: with the tracking flag disabled, both accessors return null,
whatever reference was supplied at construction. -/
theorem mixin_disabled_returns_null (p : Option Addr) :
    (ShadowStorageMixin.ctor false p).shadow_storage = none
    ∧ (ShadowStorageMixin.ctor false p).shadow_storage_ref = none := by
  constructor <;> rfl

/-- C6: with the tracking flag enabled, `shadow_storage()` and
`shadow_storage_ref()` denote the identical underlying object (the same
pointer value, for every mixin instance). -/
theorem mixin_enabled_accessors_agree (m : ShadowStorageMixin true) :
    m.shadow_storage = m.shadow_storage_ref := by
  rfl

/-- Modelled from the spec: the backing `StorageImpl` is not part of this
excerpt (only the `Storage` facade is); per the spec it owns the live
generation and exposes its own `simulate_copy_on_write` entry point and an
opaque conditional-bump policy, both abstracted as function fields. -/
structure StorageImpl where
  live_generation : Nat
  simulate_copy_on_write : Option Addr → Option Addr
  bump_policy : Option Addr → Bool

/-- Modelled from the spec: the backing implementation decides, from the
simulator, whether this write bumps the live generation. -/
def StorageImpl.maybe_bump_copy_on_write_generation (impl : StorageImpl)
    (simulator : Option Addr) : StorageImpl :=
  if impl.bump_policy simulator then
    { impl with live_generation := impl.live_generation + 1 }
  else impl

/-- `c10::Storage`: holds `storage_impl_`, an intrusive pointer to the
backing implementation that may be null. -/
structure Storage where
  storage_impl_ : Option StorageImpl

/-- `Storage::simulate_copy_on_write`:
`TORCH_INTERNAL_ASSERT(storage_impl_ != nullptr)` (modelled by `none`),
then `return storage_impl_.get()->simulate_copy_on_write(simulator);`. -/
def Storage.simulate_copy_on_write (s : Storage) (simulator : Option Addr) :
    Option (Option Addr) :=
  match s.storage_impl_ with
  | none => none
  | some impl => some (impl.simulate_copy_on_write simulator)

/-- `Storage::maybe_bump_copy_on_write_generation`: same null assert, then
delegates the mutable bump decision to the backing implementation; the
updated storage is returned to model the mutation. -/
def Storage.maybe_bump_copy_on_write_generation (s : Storage)
    (simulator : Option Addr) : Option Storage :=
  match s.storage_impl_ with
  | none => none
  | some impl =>
    some ⟨some (impl.maybe_bump_copy_on_write_generation simulator)⟩

/-- C4: both facade methods on a `Storage` whose `storage_impl_` is null hit
the fatal internal assert, for every simulator argument. -/
theorem null_impl_is_fatal (simulator : Option Addr) :
    (Storage.mk none).simulate_copy_on_write simulator = none
    ∧ (Storage.mk none).maybe_bump_copy_on_write_generation simulator
        = none := by
  constructor <;> rfl

/-- C9: with the backing implementation present, the facade returns exactly
the backing implementation's result, unchanged. -/
theorem simulate_delegates_unchanged (impl : StorageImpl)
    (simulator : Option Addr) :
    (Storage.mk (some impl)).simulate_copy_on_write simulator
      = some (impl.simulate_copy_on_write simulator) := by
  rfl

theorem bump_isLt {b : Bool} (s : ShadowStorageImpl b)
    (h : s.generation_ ≠ UINT64_MAX) : s.generation_ + 1 < UINT64_BOUND := by
  have hlt := s.isLt
  unfold UINT64_MAX UINT64_BOUND at *
  omega

theorem bump_generation_of_ne {b : Bool} (s : ShadowStorageImpl b)
    (h : s.generation_ ≠ UINT64_MAX) :
    s.bump_generation
      = some (s.generation_ + 1, ⟨s.generation_ + 1, bump_isLt s h⟩) := by
  unfold ShadowStorageImpl.bump_generation
  rw [dif_neg h]

theorem bump_generation_of_eq {b : Bool} (s : ShadowStorageImpl b)
    (h : s.generation_ = UINT64_MAX) : s.bump_generation = none := by
  unfold ShadowStorageImpl.bump_generation
  rw [dif_pos h]

/-- One call against a counter: a mutating `bump_generation` or a pure
`generation` read. -/
inductive CounterOp where
  | bump
  | read

/-- Runs a sequence of counter calls, collecting every returned value; a
fatal assert anywhere aborts the whole run (`none`). -/
def runOps {b : Bool} (s : ShadowStorageImpl b) :
    List CounterOp → Option (List Nat × ShadowStorageImpl b)
  | [] => some ([], s)
  | CounterOp.read :: ops =>
    (runOps s ops).map (fun p => (s.generation :: p.1, p.2))
  | CounterOp.bump :: ops =>
    s.bump_generation.bind
      (fun vs => (runOps vs.2 ops).map (fun p => (vs.1 :: p.1, p.2)))

/-- The observable outcome of a run: the returned values and the final
stored generation (the ownership flag does not appear in the type). -/
def obsCounter {b : Bool} (r : Option (List Nat × ShadowStorageImpl b)) :
    Option (List Nat × Nat) :=
  r.map (fun p => (p.1, p.2.generation_))

theorem obsCounter_map_prepend {b : Bool}
    (r : Option (List Nat × ShadowStorageImpl b)) (c : Nat) :
    obsCounter (r.map (fun p => (c :: p.1, p.2)))
      = (obsCounter r).map (fun q => (c :: q.1, q.2)) := by
  cases r <;> rfl

theorem runOps_obs_eq :
    ∀ (ops : List CounterOp) {b1 b2 : Bool} (s1 : ShadowStorageImpl b1)
      (s2 : ShadowStorageImpl b2), s1.generation_ = s2.generation_ →
      obsCounter (runOps s1 ops) = obsCounter (runOps s2 ops) := by
  intro ops
  induction ops with
  | nil =>
    intro b1 b2 s1 s2 hgen
    simp [runOps, obsCounter, hgen]
  | cons op ops ih =>
    intro b1 b2 s1 s2 hgen
    cases op with
    | read =>
      simp only [runOps]
      rw [obsCounter_map_prepend, obsCounter_map_prepend, ih s1 s2 hgen,
        show s1.generation = s2.generation from hgen]
    | bump =>
      by_cases hmax : s1.generation_ = UINT64_MAX
      · have hmax2 : s2.generation_ = UINT64_MAX := by omega
        simp only [runOps, bump_generation_of_eq s1 hmax,
          bump_generation_of_eq s2 hmax2, Option.none_bind]
        rfl
      · have hmax2 : s2.generation_ ≠ UINT64_MAX := by omega
        simp only [runOps, bump_generation_of_ne s1 hmax,
          bump_generation_of_ne s2 hmax2, Option.some_bind]
        rw [obsCounter_map_prepend, obsCounter_map_prepend,
          ih ⟨s1.generation_ + 1, bump_isLt s1 hmax⟩
            ⟨s2.generation_ + 1, bump_isLt s2 hmax2⟩
            (show s1.generation_ + 1 = s2.generation_ + 1 by omega),
          show s1.generation_ + 1 = s2.generation_ + 1 by omega]

/-- C5: the two template instantiations (`intrusive = true` / `false`),
started from the same initial value and run on the same sequence of
`bump_generation` and `generation` calls, return identical values and end
at identical generations. -/
theorem ownership_policy_has_no_effect (G : Nat) (ops : List CounterOp) :
    obsCounter (runOps (ShadowStorageImpl.ctor true G) ops)
      = obsCounter (runOps (ShadowStorageImpl.ctor false G) ops) :=
  runOps_obs_eq ops (ShadowStorageImpl.ctor true G)
    (ShadowStorageImpl.ctor false G) rfl

theorem runOps_mono {b : Bool} :
    ∀ (ops : List CounterOp) (s : ShadowStorageImpl b) (vs : List Nat)
      (sf : ShadowStorageImpl b), runOps s ops = some (vs, sf) →
      s.generation_ ≤ sf.generation_ := by
  intro ops
  induction ops with
  | nil =>
    intro s vs sf h
    simp only [runOps, Option.some.injEq, Prod.mk.injEq] at h
    rw [← h.2]
  | cons op ops ih =>
    intro s vs sf h
    cases op with
    | read =>
      simp only [runOps] at h
      rw [Option.map_eq_some'] at h
      obtain ⟨p, hp, hps⟩ := h
      have hle := ih s p.1 p.2 (by rw [hp])
      have hsf : p.2 = sf := congrArg Prod.snd hps
      rw [← hsf]
      exact hle
    | bump =>
      simp only [runOps] at h
      by_cases hmax : s.generation_ = UINT64_MAX
      · rw [bump_generation_of_eq s hmax] at h
        exact absurd h (by simp)
      · rw [bump_generation_of_ne s hmax, Option.some_bind] at h
        rw [Option.map_eq_some'] at h
        obtain ⟨p, hp, hps⟩ := h
        have hle := ih ⟨s.generation_ + 1, bump_isLt s hmax⟩ p.1 p.2
          (by rw [hp])
        have hsf : p.2 = sf := congrArg Prod.snd hps
        have hle' : s.generation_ + 1 ≤ p.2.generation_ := hle
        rw [← hsf]
        omega

/-- C8: `generation()` is the pure accessor of the stored field; a
successful `bump_generation` moves the stored value up by exactly 1 and
returns the new value; along any run of calls the generation never
decreases. -/
theorem counter_invariants (b : Bool) (s : ShadowStorageImpl b) :
    s.generation = s.generation_
    ∧ (∀ rv s1, s.bump_generation = some (rv, s1) →
        s1.generation = s.generation + 1 ∧ rv = s1.generation)
    ∧ (∀ ops vs sf, runOps s ops = some (vs, sf) →
        s.generation ≤ sf.generation) := by
  refine ⟨rfl, ?_, ?_⟩
  · intro rv s1 h
    by_cases hmax : s.generation_ = UINT64_MAX
    · rw [bump_generation_of_eq s hmax] at h
      exact absurd h (by simp)
    · rw [bump_generation_of_ne s hmax] at h
      simp only [Option.some.injEq, Prod.mk.injEq] at h
      obtain ⟨h1, h2⟩ := h
      subst h1
      exact ⟨by rw [← h2]; rfl, by rw [← h2]; rfl⟩
  · intro ops vs sf h
    exact runOps_mono ops s vs sf h

/-- Closed witness for C8: a bump at 5 and a two-bump run starting at 5. -/
theorem counter_invariants_witness :
    (ShadowStorageImpl.ctor true 5).bump_generation
        = some (6, ShadowStorageImpl.ctor true 6)
    ∧ ((ShadowStorageImpl.ctor true 6).generation
        = (ShadowStorageImpl.ctor true 5).generation + 1
      ∧ 6 = (ShadowStorageImpl.ctor true 6).generation)
    ∧ runOps (ShadowStorageImpl.ctor true 5) [CounterOp.bump, CounterOp.bump]
        = some ([6, 7], ShadowStorageImpl.ctor true 7)
    ∧ (ShadowStorageImpl.ctor true 5).generation
        ≤ (ShadowStorageImpl.ctor true 7).generation :=
  ⟨rfl,
   (counter_invariants true (ShadowStorageImpl.ctor true 5)).2.1 6
     (ShadowStorageImpl.ctor true 6) rfl,
   rfl,
   (counter_invariants true (ShadowStorageImpl.ctor true 5)).2.2
     [CounterOp.bump, CounterOp.bump] [6, 7]
     (ShadowStorageImpl.ctor true 7) rfl⟩

/-- C7: end-to-end scenario. The live counter starts at 0; a shadow is
captured at the live generation (0); three bumps move the live counter to
3 while the captured shadow still reports 0, so staleness is detectable as
shadow(0) < live(3). -/
theorem shadow_never_self_updates :
    bumpN (ShadowStorageImpl.ctor true 0) 3
        = some ([1, 2, 3], ShadowStorageImpl.ctor true 3)
    ∧ (ShadowStorageImpl.ctor true 3).generation = 3
    ∧ (ShadowStorageImpl.ctor true
        ((ShadowStorageImpl.ctor true 0).generation)).generation = 0
    ∧ (ShadowStorageImpl.ctor true
        ((ShadowStorageImpl.ctor true 0).generation)).generation
      < (ShadowStorageImpl.ctor true 3).generation :=
  ⟨rfl, rfl, rfl, by decide⟩

/-- The error thrown by `C10_THROW_ERROR(NotImplementedError, ...)`. -/
inductive C10Err where
  | NotImplementedError (msg : String)

/-- A tensor's observable contents; the kernels in scope only ever copy
data between tensors, so a flat value list suffices. -/
abbrev Tensor := List Int

/-- `fsdp_all_gather_copy_out` from `shuffle.cpp`, with the `USE_CUDA`
conditional compilation modelled by `useCuda` and the (out-of-scope) CUDA
kernel `fsdpAllGatherCopyOut` passed as a function. The result carries the
final contents of the mutable tensor arguments. -/
def fsdp_all_gather_copy_out (useCuda : Bool)
    (cudaKernel : List Tensor → Tensor → Int → List Tensor × Tensor)
    (params : List Tensor) (all_gather_res : Tensor) (world_size : Int) :
    Except C10Err Unit × List Tensor × Tensor :=
  if useCuda then
    let r := cudaKernel params all_gather_res world_size
    (Except.ok (), r.1, r.2)
  else
    (Except.error (C10Err.NotImplementedError "Not implemented for CPU"),
      params, all_gather_res)

/-- `unflatten_cat_with_pad` from `shuffle.cpp`, modelled the same way. -/
def unflatten_cat_with_pad (useCuda : Bool)
    (cudaKernel : List Tensor → Int → Int → Tensor → List Tensor × Tensor)
    (tensors : List Tensor) (dim factor : Int) (out : Tensor) :
    Except C10Err Unit × List Tensor × Tensor :=
  if useCuda then
    let r := cudaKernel tensors dim factor out
    (Except.ok (), r.1, r.2)
  else
    (Except.error (C10Err.NotImplementedError "Not implemented for CPU"),
      tensors, out)

/-- C10: in a build without CUDA, both registered operations throw
`NotImplementedError` on every input and leave every tensor argument
exactly as it was. -/
theorem cpu_build_raises_not_implemented
    (k1 : List Tensor → Tensor → Int → List Tensor × Tensor)
    (k2 : List Tensor → Int → Int → Tensor → List Tensor × Tensor)
    (params : List Tensor) (all_gather_res : Tensor) (world_size : Int)
    (tensors : List Tensor) (dim factor : Int) (out : Tensor) :
    fsdp_all_gather_copy_out false k1 params all_gather_res world_size
      = (Except.error (C10Err.NotImplementedError "Not implemented for CPU"),
          params, all_gather_res)
    ∧ unflatten_cat_with_pad false k2 tensors dim factor out
      = (Except.error (C10Err.NotImplementedError "Not implemented for CPU"),
          tensors, out) :=
  ⟨rfl, rfl⟩

end PyTorchCow
